import Mathlib

/-!
Shallow embedding of `src/main.py` of the t3rn bridge bot, together with
theorems settling the specification's claims about it.

The bot talks to two chains (Arbitrum and Base) over JSON-RPC.  Chain I/O
is embedded by passing the values the RPC calls return as explicit
arguments or as read streams (`ℕ → ℚ` indexed by the per-chain query
count); fallible calls are embedded as `Except` values.  Python floats
returned by balance reads are modelled by their exact rational values,
plus a predicate (`dyadic53`) characterising which rationals a 64-bit
binary float can hold at all.
-/

namespace T3rnBot

/-- `int(estimated_gas * 1.2)` from `build_tx` (src/main.py:46).  Python's
`int` truncates towards zero; for gas estimates `g < 2 ^ 50` (any realistic
gas value) the IEEE-754 double product `g * 1.2` stays within `0.2` of the
exact value `6 * g / 5`, so the truncation yields exactly `⌊6 * g / 5⌋`,
which is what this definition computes with natural division. -/
def gasLimitOf (estimated : ℕ) : ℕ :=
  6 * estimated / 5

/-- The transaction dictionary assembled by `build_tx` (src/main.py:34-42,53):
keys "to", "from", "value", "data", "gasPrice", "nonce", "chainId", "gas".
The value is held in wei (the source converts `amount_eth` with `to_wei`). -/
structure TxDraft where
  toAddr : String
  fromAddr : String
  value : ℕ
  data : String
  gasPrice : ℕ
  nonce : ℕ
  chainId : ℕ
  gas : ℕ
deriving DecidableEq, Repr

/-- `build_tx` (src/main.py:30-54).  The RPC reads that the source performs
(`get_transaction_count`, `gas_price`, `chain_id`) are passed in as the
values they returned; the outcome of `w3.eth.estimate_gas(tx)` is passed as
an `Except`: `ok g` when estimation returned `g`, `error e` when it raised.
`GAS_LIMIT` is the fallback constant imported from `config.py`.  On
estimation success the gas field is `int(estimated_gas * 1.2)`; on failure
it is the fallback; either way a complete draft is returned. -/
def build_tx (wallet_address to_addr data : String) (amountWei nonce gasPrice chainId : ℕ)
    (GAS_LIMIT : ℕ) (estimate : Except String ℕ) : TxDraft :=
  let gas := match estimate with
    | Except.ok estimated_gas => gasLimitOf estimated_gas
    | Except.error _ => GAS_LIMIT
  ⟨to_addr, wallet_address, amountWei, data, gasPrice, nonce, chainId, gas⟩

/-- A transaction receipt as used by `send_tx` (src/main.py:62-65):
`status` and `blockNumber`. -/
structure Receipt where
  status : ℕ
  blockNumber : ℕ
deriving DecidableEq, Repr

/-- The classification-and-return tail of `send_tx` (src/main.py:62-65):
given the receipt that `wait_for_transaction_receipt` produced, the function
prints `"SUCCESS"` when `receipt.status == 1` and `"FAIL"` otherwise, and
returns the receipt unchanged to the caller; no path raises. -/
def send_tx (receipt : Receipt) : String × Receipt :=
  (if receipt.status = 1 then "SUCCESS" else "FAIL", receipt)

/-- `get_web3` (src/main.py:18-23): connects to the RPC url and raises
`ConnectionError` when `is_connected()` is false.  The connectivity of the
endpoint is passed as a `Bool`; the returned connection is represented by
the url itself. -/
def get_web3 (connected : Bool) (rpc_url : String) : Except String String :=
  if connected then Except.ok rpc_url
  else Except.error ("Failed to connect to " ++ rpc_url)

/-- `verify_contract_code` (src/main.py:94-99): reads the code bytes at the
address (passed here as the byte list `get_code` returned) and only prints a
message — a warning when the code is empty, a confirmation otherwise.  It
is total: no path raises or aborts. -/
def verify_contract_code (code : List ℕ) (address network_name : String) : String :=
  if code = [] then
    "No contract found at " ++ address ++ " on " ++ network_name
  else
    "Contract exists at " ++ address ++ " on " ++ network_name ++
      " (code length: " ++ toString code.length ++ " bytes)"

/-- The startup prefix of `main_loop` (src/main.py:101-110): connect to both
RPCs (each may raise), then run the two contract-code checks, which only
produce messages.  The result is `ok` with both messages exactly when both
connections succeed, regardless of the code bytes found. -/
def startup (arbConnected baseConnected : Bool) (arbRpc baseRpc : String)
    (codeArb codeBase : List ℕ) (arbContract baseContract : String) :
    Except String (String × String) := do
  _ ← get_web3 arbConnected arbRpc
  _ ← get_web3 baseConnected baseRpc
  Except.ok (verify_contract_code codeArb arbContract "Arbitrum Sepolia",
             verify_contract_code codeBase baseContract "Base Sepolia")

/-- Wei per whole ETH: `from_wei(_, "ether")` divides by `10 ^ 18`. -/
def weiPerEth : ℕ := 10 ^ 18

/-- The exact value of `w3.from_wei(balance_wei, "ether")`
(src/main.py:28): web3's `from_wei` performs the division in `Decimal`
arithmetic with enough precision to be exact for any on-chain balance. -/
def fromWei (wei : ℕ) : ℚ :=
  (wei : ℚ) / (weiPerEth : ℚ)

/-- The rationals representable as a finite IEEE-754 binary64 value: a
(sub)normal double is `m * 2 ^ e` with an integer mantissa `|m| < 2 ^ 53`.
Python's `float` holds exactly these values (besides infinities and NaN). -/
def dyadic53 (q : ℚ) : Prop :=
  ∃ m e : ℤ, |m| < 2 ^ 53 ∧ q = (m : ℚ) * (2 : ℚ) ^ e

/-- `check_balance` (src/main.py:25-28): reads the wei balance and returns
`float(w3.from_wei(balance_wei, "ether"))`.  The final `float(...)`
conversion is embedded as a function `toFloat` on the exact rational value;
any faithful instantiation takes values in `dyadic53`. -/
def check_balance (toFloat : ℚ → ℚ) (balance_wei : ℕ) : ℚ :=
  toFloat (fromWei balance_wei)

/-- A bridge transaction issued by the orchestrator, by direction:
`bridge_arb_to_base` (src/main.py:84-87) or `bridge_base_to_arb`
(src/main.py:89-92). -/
inductive Tx where
  | arbToBase
  | baseToArb
deriving DecidableEq, Repr

/-- One drain loop of `main_loop` (src/main.py:125-132 and 135-142):
`while check_balance(w3, address) >= MIN_BALANCE_ETH: bridge(...)`.
`bal i` is the value the `i`-th balance query of this chain returns (the
balance is re-read fresh before every iteration); `k` is the index of the
next query; `fuel` bounds the number of loop iterations modelled (`none`
means the loop did not finish within `fuel` checks).  The result is the
number of bridge transactions issued and the next query index.  The
`time.sleep(random.randint(10, 30))` pacing between transactions does not
affect which transactions are issued and is not modelled. -/
def drain (bal : ℕ → ℚ) (T : ℚ) : ℕ → ℕ → Option (ℕ × ℕ)
  | 0, _ => none
  | fuel + 1, k =>
    if T ≤ bal k then
      (drain bal T fuel (k + 1)).map (fun p => (p.1 + 1, p.2))
    else
      some (0, k)

/-- What one non-raising cycle of `main_loop`'s `while True` body produces:
the bridge transactions issued, in order, and the final sleep duration in
seconds before the next balance check. -/
structure CycleOut where
  txs : List Tx
  sleep : ℕ
deriving DecidableEq, Repr

/-- One cycle of the `while True` body of `main_loop` (src/main.py:113-146),
on the path where no exception is raised.  `arb i` (resp. `base i`) is the
value the `i`-th balance query of the Arbitrum (resp. Base) chain returns:
index 0 is the read at the top of the cycle (src/main.py:114-115), index 1
onwards are the fresh reads of the corresponding drain loop.  If both
top-of-cycle balances are below `T = MIN_BALANCE_ETH`, the cycle issues
nothing and sleeps 30 seconds (src/main.py:119-122); otherwise it runs the
Arb→Base drain, then the Base→Arb drain, then sleeps 60 seconds
(src/main.py:125-146). -/
def cycle (arb base : ℕ → ℚ) (T : ℚ) (fuel : ℕ) : Option CycleOut :=
  if arb 0 < T ∧ base 0 < T then
    some ⟨[], 30⟩
  else
    (drain arb T fuel 1).bind fun pA =>
      (drain base T fuel 1).bind fun pB =>
        some ⟨List.replicate pA.1 Tx.arbToBase ++ List.replicate pB.1 Tx.baseToArb, 60⟩

/-- The `try/except` wrapper of `main_loop` (src/main.py:112-150) applied to
one cycle's outcome: a completed cycle contributes its own sleep; an
exception anywhere in the cycle is caught, logged, and followed by a
30-second sleep (src/main.py:148-150).  The `Bool` records whether the loop
continues afterwards — it always does; no path breaks out of `while True`. -/
def iterateResult (r : Except String CycleOut) : ℕ × Bool :=
  match r with
  | Except.ok out => (out.sleep, true)
  | Except.error _ => (30, true)

/-- `n` consecutive iterations of the `while True` loop, given the stream of
cycle outcomes (each either a completed cycle or a raised exception); the
result is the list of sleep durations taken after each iteration.  The loop
never terminates on its own, so all `n` iterations run. -/
def main_loop_run (results : ℕ → Except String CycleOut) : ℕ → List ℕ
  | 0 => []
  | n + 1 => (iterateResult (results 0)).1 :: main_loop_run (fun k => results (k + 1)) n

/-- Characterisation of the drain loop: when it finishes within its fuel
having issued `n` transactions, every fresh balance read before a
transaction was at or above the threshold, the read after the last
transaction is below it, and `n + start` queries of this chain were made. -/
theorem drain_spec (bal : ℕ → ℚ) (T : ℚ) :
    ∀ fuel k n k', drain bal T fuel k = some (n, k') →
      k' = k + n ∧ bal (k + n) < T ∧ ∀ i, i < n → T ≤ bal (k + i) := by
  intro fuel
  induction fuel with
  | zero =>
    intro k n k' h
    simp [drain] at h
  | succ fuel ih =>
    intro k n k' h
    simp only [drain] at h
    by_cases hT : T ≤ bal k
    · rw [if_pos hT] at h
      rcases Option.map_eq_some'.mp h with ⟨⟨n0, k0⟩, hd, hEq⟩
      have hn : n0 + 1 = n := congrArg Prod.fst hEq
      have hk : k0 = k' := congrArg Prod.snd hEq
      subst hn hk
      obtain ⟨h1, h2, h3⟩ := ih (k + 1) n0 k0 hd
      refine ⟨by omega, ?_, ?_⟩
      · have hx : k + (n0 + 1) = (k + 1) + n0 := by omega
        rw [hx]
        exact h2
      · intro i hi
        cases i with
        | zero => simpa using hT
        | succ j =>
          have hx : k + (j + 1) = (k + 1) + j := by omega
          rw [hx]
          exact h3 j (by omega)
    · rw [if_neg hT] at h
      have hn : 0 = n := congrArg Prod.fst (Option.some.inj h)
      have hk : k = k' := congrArg Prod.snd (Option.some.inj h)
      subst hn hk
      exact ⟨by omega, by simpa using lt_of_not_le hT, by omega⟩

/-! ### Theorems for the builder and submitter claims -/

/-- C1 (counterexample): the claim says the gas limit equals
`ceil(G * 1.2)`; the source computes `int(estimated_gas * 1.2)`, which
truncates.  At the concrete estimate `G = 1` the draft's gas is `1` while
`⌈1 * 1.2⌉ = 2`. -/
theorem build_tx_gas_not_ceil :
    ((build_tx "w" "t" "d" 0 7 5 1 1000000 (Except.ok 1)).gas : ℤ) ≠
      ⌈((1 : ℕ) : ℚ) * (12 / 10)⌉ := by
  have h1 : (build_tx "w" "t" "d" 0 7 5 1 1000000 (Except.ok 1)).gas = 1 := rfl
  have h2 : (⌈((1 : ℕ) : ℚ) * (12 / 10)⌉ : ℤ) = 2 := by
    rw [Int.ceil_eq_iff]
    norm_num
  rw [h1, h2]
  norm_num

/-- C1 (amended): for any estimated gas value `G` the gas limit placed in
the draft equals `⌊G * 1.2⌋` (the floor, not the ceiling). -/
theorem build_tx_gas_floor (wallet_address to_addr data : String)
    (amountWei nonce gasPrice chainId GAS_LIMIT G : ℕ) :
    (build_tx wallet_address to_addr data amountWei nonce gasPrice chainId GAS_LIMIT
        (Except.ok G)).gas = ⌊((G : ℚ) * (12 / 10))⌋₊ := by
  have h1 : (build_tx wallet_address to_addr data amountWei nonce gasPrice chainId GAS_LIMIT
      (Except.ok G)).gas = 6 * G / 5 := rfl
  have h2 : ((G : ℚ) * (12 / 10)) = ((6 * G : ℕ) : ℚ) / ((5 : ℕ) : ℚ) := by
    push_cast
    ring
  rw [h1, h2, Nat.floor_div_eq_div]

/-- C2: whenever gas estimation fails (for any exception `e`), `build_tx`
still returns a complete draft and its gas field is the configured fallback
constant `GAS_LIMIT`; no exception escapes the estimation step. -/
theorem build_tx_fallback_gas_limit (wallet_address to_addr data : String)
    (amountWei nonce gasPrice chainId GAS_LIMIT : ℕ) (e : String) :
    build_tx wallet_address to_addr data amountWei nonce gasPrice chainId GAS_LIMIT
        (Except.error e) =
      ⟨to_addr, wallet_address, amountWei, data, gasPrice, nonce, chainId, GAS_LIMIT⟩ :=
  rfl

/-- C6: `send_tx` returns the observed receipt unchanged to its caller, the
classification it prints is `"SUCCESS"` exactly when `receipt.status == 1`,
and a reverted receipt (`status = 0`) is classified `"FAIL"` rather than
raising — so the orchestrator loop proceeds to its next balance check. -/
theorem send_tx_classification (r : Receipt) :
    (send_tx r).2 = r ∧ ((send_tx r).1 = "SUCCESS" ↔ r.status = 1) ∧
      (r.status = 0 → (send_tx r).1 = "FAIL") := by
  refine ⟨rfl, ?_, ?_⟩
  · by_cases h : r.status = 1
    · simp [send_tx, h]
    · simp [send_tx, h]
  · intro h0
    have h : ¬ r.status = 1 := by omega
    simp [send_tx, h]

/-- C6 (witness): a status-0 receipt is classified FAIL and returned. -/
theorem send_tx_classification_witness :
    (⟨0, 7⟩ : Receipt).status = 0 ∧ (send_tx ⟨0, 7⟩).1 = "FAIL" :=
  ⟨rfl, (send_tx_classification ⟨0, 7⟩).2.2 rfl⟩

/-! ### Theorems for the orchestrator claims -/

/-- C4: when both balances read at the top of the cycle are below the
threshold, the cycle issues no transaction and sleeps exactly 30 seconds,
and the loop continues to re-read both balances. -/
theorem cycle_cold_wait_30 (arb base : ℕ → ℚ) (T : ℚ) (fuel : ℕ)
    (hA : arb 0 < T) (hB : base 0 < T) :
    cycle arb base T fuel = some ⟨[], 30⟩ ∧
      iterateResult (Except.ok ⟨[], 30⟩) = (30, true) := by
  constructor
  · unfold cycle
    rw [if_pos ⟨hA, hB⟩]
  · rfl

/-- C4 (witness): both balances 0, threshold 1. -/
theorem cycle_cold_wait_30_witness :
    ((fun _ : ℕ => (0 : ℚ)) 0 < 1) ∧ ((fun _ : ℕ => (0 : ℚ)) 0 < 1) ∧
      (cycle (fun _ => (0 : ℚ)) (fun _ => (0 : ℚ)) 1 3 = some ⟨[], 30⟩ ∧
        iterateResult (Except.ok ⟨[], 30⟩) = (30, true)) :=
  ⟨by norm_num, by norm_num, cycle_cold_wait_30 _ _ 1 3 (by norm_num) (by norm_num)⟩

/-- C3 (counterexample): the claim says that a cycle starting with
Arbitrum balance ≥ threshold and Base balance < threshold issues no
Base→Arb transaction.  But the Base drain loop re-reads the Base balance
fresh (src/main.py:135); here the top-of-cycle Base read is 0 < 1 while the
fresh re-read after the Arb drain is 2 ≥ 1, and the cycle does issue a
Base→Arb transaction. -/
theorem cycle_base_drain_counterexample :
    ((1 : ℚ) ≤ (fun k => if k ≤ 1 then (1 : ℚ) else 0) 0) ∧
    ((fun k : ℕ => if k = 1 then (2 : ℚ) else 0) 0 < 1) ∧
    cycle (fun k => if k ≤ 1 then (1 : ℚ) else 0) (fun k => if k = 1 then (2 : ℚ) else 0) 1 5 =
      some ⟨[Tx.arbToBase, Tx.baseToArb], 60⟩ := by
  refine ⟨by norm_num, by norm_num, ?_⟩
  rfl

/-- C3 (amended): for a cycle starting with Arbitrum balance ≥ threshold,
provided the fresh Base-balance read taken when the Base drain loop starts
is still below threshold, the cycle issues only Arb→Base transactions, one
at a time — each preceded by a fresh Arbitrum read at or above threshold —
and stops as soon as a fresh Arbitrum read falls below threshold, issuing
no Base→Arb transaction in that cycle. -/
theorem cycle_arb_drain_only (arb base : ℕ → ℚ) (T : ℚ) (fuel : ℕ) (out : CycleOut)
    (hA : T ≤ arb 0) (hB1 : base 1 < T)
    (h : cycle arb base T fuel = some out) :
    ∃ n, out.txs = List.replicate n Tx.arbToBase ∧ arb (1 + n) < T ∧
      ∀ i, i < n → T ≤ arb (1 + i) := by
  unfold cycle at h
  rw [if_neg (fun hc => absurd hc.1 (not_lt.mpr hA))] at h
  rcases Option.bind_eq_some'.mp h with ⟨⟨nA, kA⟩, hdA, h2⟩
  rcases Option.bind_eq_some'.mp h2 with ⟨⟨nB, kB⟩, hdB, h3⟩
  have hout : out = ⟨List.replicate nA Tx.arbToBase ++ List.replicate nB Tx.baseToArb, 60⟩ :=
    (Option.some.inj h3).symm
  obtain ⟨-, -, hBall⟩ := drain_spec base T fuel 1 nB kB hdB
  have hnB : nB = 0 := by
    by_contra hne
    have hx := hBall 0 (by omega)
    rw [show (1 : ℕ) + 0 = 1 from rfl] at hx
    exact absurd hx (not_le.mpr hB1)
  obtain ⟨-, hA2, hA3⟩ := drain_spec arb T fuel 1 nA kA hdA
  refine ⟨nA, ?_, hA2, hA3⟩
  rw [hout, hnB]
  simp

/-- C3 (witness): Arbitrum starts at threshold and immediately drains to 0;
Base stays at 0 throughout, so the cycle issues no transaction at all. -/
theorem cycle_arb_drain_only_witness :
    ((1 : ℚ) ≤ (fun k => if k = 0 then (1 : ℚ) else 0) 0) ∧
    ((fun _ : ℕ => (0 : ℚ)) 1 < 1) ∧
    (cycle (fun k => if k = 0 then (1 : ℚ) else 0) (fun _ => 0) 1 1 = some ⟨[], 60⟩) ∧
    ∃ n, (⟨[], 60⟩ : CycleOut).txs = List.replicate n Tx.arbToBase ∧
      (fun k => if k = 0 then (1 : ℚ) else 0) (1 + n) < 1 ∧
      ∀ i, i < n → (1 : ℚ) ≤ (fun k => if k = 0 then (1 : ℚ) else 0) (1 + i) :=
  ⟨by norm_num, by norm_num, rfl,
   cycle_arb_drain_only (fun k => if k = 0 then (1 : ℚ) else 0) (fun _ => 0) 1 1 ⟨[], 60⟩
     (by norm_num) (by norm_num) rfl⟩

/-- C8: in a cycle where at least one top-of-cycle balance is at or above
the threshold, once both drain loops have completed (or were skipped
because the corresponding fresh read was already below threshold), the
orchestrator sleeps exactly 60 seconds before the next balance check. -/
theorem cycle_post_drain_sleep_60 (arb base : ℕ → ℚ) (T : ℚ) (fuel : ℕ) (out : CycleOut)
    (hAB : ¬ (arb 0 < T ∧ base 0 < T)) (h : cycle arb base T fuel = some out) :
    out.sleep = 60 := by
  unfold cycle at h
  rw [if_neg hAB] at h
  rcases Option.bind_eq_some'.mp h with ⟨pA, hdA, h2⟩
  rcases Option.bind_eq_some'.mp h2 with ⟨pB, hdB, h3⟩
  rw [(Option.some.inj h3).symm]

/-- C8 (witness): Arbitrum starts at 5 and drains to 0 after one
transaction, Base stays at 0; the cycle ends with a 60-second sleep. -/
theorem cycle_post_drain_sleep_60_witness :
    (¬ ((fun k => if k ≤ 1 then (5 : ℚ) else 0) 0 < 1 ∧ (fun _ : ℕ => (0 : ℚ)) 0 < 1)) ∧
    (cycle (fun k => if k ≤ 1 then (5 : ℚ) else 0) (fun _ => 0) 1 3 =
      some ⟨[Tx.arbToBase], 60⟩) ∧
    (⟨[Tx.arbToBase], 60⟩ : CycleOut).sleep = 60 :=
  ⟨by norm_num, rfl,
   cycle_post_drain_sleep_60 (fun k => if k ≤ 1 then (5 : ℚ) else 0) (fun _ => 0) 1 3
     ⟨[Tx.arbToBase], 60⟩ (by norm_num) rfl⟩

/-- C5: an exception raised anywhere in a cycle is caught by the loop's
`except` clause, which sleeps 30 seconds and lets the loop resume; the loop
continues after every iteration no matter its outcome (it runs all of its
iterations, never terminating itself); only the startup connectivity check
`get_web3` raises an error that is not caught by the loop. -/
theorem error_backoff_resume :
    (∀ e : String, iterateResult (Except.error e) = (30, true)) ∧
    (∀ r : Except String CycleOut, (iterateResult r).2 = true) ∧
    (∀ rpc_url : String,
      get_web3 false rpc_url = Except.error ("Failed to connect to " ++ rpc_url)) ∧
    (∀ results : ℕ → Except String CycleOut, ∀ n, (main_loop_run results n).length = n) := by
  refine ⟨fun e => rfl, fun r => ?_, fun u => rfl, fun results n => ?_⟩
  · cases r <;> rfl
  · induction n generalizing results with
    | zero => rfl
    | succ n ih => simp [main_loop_run, ih]

/-! ### The nonce invariant -/

/-- The wallet's account state on one chain as seen through the RPC: the
transaction count returned by `w3.eth.get_transaction_count`. -/
structure ChainState where
  txCount : ℕ
deriving DecidableEq, Repr

/-- `w3.eth.get_transaction_count(wallet_address)` (src/main.py:32): read
fresh from the chain on every `build_tx` call; nothing is cached locally. -/
def get_transaction_count (c : ChainState) : ℕ :=
  c.txCount

/-- The chain's effect of one confirmed transaction from the wallet:
`send_tx` blocks in `wait_for_transaction_receipt` (src/main.py:62) until
the transaction is included, and inclusion consumes its nonce, raising the
account's transaction count by one (a reverted transaction is still
included and consumes its nonce).  The wallet is exclusively owned by this
process, so no other transactions move the count. -/
def confirm (c : ChainState) : ChainState :=
  ⟨c.txCount + 1⟩

/-- The drafts built by `k` consecutive build+submit rounds of the bot on
one chain (each round is `build_tx` at src/main.py:86 or 91 followed by
`send_tx` blocking until the receipt): each draft's nonce is the fresh
`get_transaction_count` at its build time, and each confirmed submission
advances the chain state.  `gasPrices i` and `estimates i` are the values
the gas-price read and the gas estimation return in round `i`. -/
def draftTrace (wallet_address to_addr data : String) (amountWei chainId GAS_LIMIT : ℕ)
    (gasPrices : ℕ → ℕ) (estimates : ℕ → Except String ℕ) :
    ChainState → ℕ → List TxDraft
  | _, 0 => []
  | c, k + 1 =>
    build_tx wallet_address to_addr data amountWei (get_transaction_count c)
        (gasPrices 0) chainId GAS_LIMIT (estimates 0) ::
      draftTrace wallet_address to_addr data amountWei chainId GAS_LIMIT
        (fun i => gasPrices (i + 1)) (fun i => estimates (i + 1)) (confirm c) k

/-- C7: across any number of consecutive transactions submitted by this
process from the same wallet on the same chain, the nonces placed in the
drafts are strictly increasing, whatever the gas prices and estimation
outcomes of the individual rounds. -/
theorem nonces_strictly_increasing (wallet_address to_addr data : String)
    (amountWei chainId GAS_LIMIT : ℕ) (gasPrices : ℕ → ℕ)
    (estimates : ℕ → Except String ℕ) (c : ChainState) (k : ℕ) :
    List.Chain' (fun a b => a < b)
      ((draftTrace wallet_address to_addr data amountWei chainId GAS_LIMIT
          gasPrices estimates c k).map TxDraft.nonce) := by
  induction k generalizing c gasPrices estimates with
  | zero => simp [draftTrace]
  | succ k ih =>
    simp only [draftTrace, List.map_cons]
    refine List.chain'_cons'.mpr ⟨?_, ih (fun i => gasPrices (i + 1))
      (fun i => estimates (i + 1)) (confirm c)⟩
    intro y hy
    cases k with
    | zero => simp [draftTrace] at hy
    | succ k2 =>
      simp only [draftTrace, List.map_cons, List.head?_cons, Option.mem_def,
        Option.some.injEq] at hy
      have hn : (build_tx wallet_address to_addr data amountWei
          (get_transaction_count (confirm c)) (gasPrices 1) chainId GAS_LIMIT
          (estimates 1)).nonce = c.txCount + 1 := rfl
      have hn0 : (build_tx wallet_address to_addr data amountWei
          (get_transaction_count c) (gasPrices 0) chainId GAS_LIMIT
          (estimates 0)).nonce = c.txCount := rfl
      rw [hn0, ← hy, hn]
      omega

/-! ### Precision of `check_balance` -/

/-- One wei in ETH, `1 / 10 ^ 18`, is not a binary64-representable
rational: its denominator has the prime factor 5. -/
theorem fromWei_one_not_dyadic : ¬ dyadic53 (fromWei 1) := by
  rintro ⟨m, e, hm, hq⟩
  have hwei : fromWei 1 = 1 / (10 ^ 18 : ℚ) := by
    norm_num [fromWei, weiPerEth]
  rw [hwei] at hq
  rcases e with n | n
  · rw [show Int.ofNat n = (n : ℤ) from rfl, zpow_natCast] at hq
    have h1 : (m : ℚ) * 2 ^ n * 10 ^ 18 = 1 := by
      rw [← hq]
      norm_num
    have h3 : (m * 2 ^ n * 10 ^ 18 : ℤ) = 1 := by
      exact_mod_cast h1
    have h4 : (10 ^ 18 : ℤ) ∣ 1 := ⟨m * 2 ^ n, by rw [← h3]; ring⟩
    have h5 : (10 ^ 18 : ℤ) ≤ 1 := Int.le_of_dvd one_pos h4
    norm_num at h5
  · rw [zpow_negSucc, ← div_eq_mul_inv] at hq
    rw [div_eq_div_iff (by positivity) (by positivity)] at hq
    have h3 : ((2 ^ (n + 1) : ℤ) : ℚ) = ((m * 10 ^ 18 : ℤ) : ℚ) := by
      push_cast
      linarith
    have h4 : (2 ^ (n + 1) : ℤ) = m * 10 ^ 18 := by
      exact_mod_cast h3
    have h5 : (5 : ℤ) ∣ 2 ^ (n + 1) := by
      rw [h4]
      exact Dvd.dvd.trans (by norm_num) (dvd_mul_left _ m)
    have h6 : (5 : ℤ) ∣ 2 := (by norm_num : Prime (5 : ℤ)).dvd_of_dvd_pow h5
    norm_num at h6

/-- C9 (counterexample): the claim says `check_balance` returns the exact
wei balance divided by `10 ^ 18`.  But the source converts the exact
`Decimal` value to a Python `float` (src/main.py:28), whose possible values
are the `dyadic53` rationals — and at a balance of 1 wei the exact value
`10 ^ (-18)` is not such a rational, so no float-valued return can equal
it.  A sample float-valued instantiation returns a value different from
the exact quotient. -/
theorem check_balance_exact_counterexample :
    check_balance (fun _ => 0) 1 ≠ fromWei 1 ∧ ¬ dyadic53 (fromWei 1) := by
  constructor
  · norm_num [check_balance, fromWei, weiPerEth]
  · exact fromWei_one_not_dyadic

/-- C9 (amended): `check_balance` returns the wei balance divided by
`10 ^ 18` converted to a 64-bit binary float; since every float value is a
dyadic rational `m * 2 ^ e` with `|m| < 2 ^ 53`, the conversion loses
precision in general — for any float conversion whatsoever, the result at
a 1-wei balance differs from the exact value `1 / 10 ^ 18`. -/
theorem check_balance_float_inexact (toFloat : ℚ → ℚ)
    (hF : ∀ q, dyadic53 (toFloat q)) :
    check_balance toFloat 1 ≠ fromWei 1 := by
  intro h
  have hd := hF (fromWei 1)
  rw [show check_balance toFloat 1 = toFloat (fromWei 1) from rfl] at h
  rw [h] at hd
  exact fromWei_one_not_dyadic hd

/-- C9 (witness): the constant-zero conversion is float-valued, and its
`check_balance` differs from the exact 1-wei value. -/
theorem check_balance_float_inexact_witness :
    (∀ q : ℚ, dyadic53 ((fun _ : ℚ => (0 : ℚ)) q)) ∧
      check_balance (fun _ => 0) 1 ≠ fromWei 1 :=
  ⟨fun _ => ⟨0, 0, by norm_num, by norm_num⟩,
   check_balance_float_inexact (fun _ => 0) (fun _ => ⟨0, 0, by norm_num, by norm_num⟩)⟩

/-- C10: when `get_code` returns empty bytes for a configured bridge
contract address, `verify_contract_code` only produces a warning message —
it is total, so it never raises or aborts — and `main_loop`'s startup still
reaches the bridging loop: with both RPCs connected, `startup` returns `ok`
whatever code bytes the lookups find. -/
theorem verify_contract_code_nonfatal (address network_name : String) :
    verify_contract_code [] address network_name =
      "No contract found at " ++ address ++ " on " ++ network_name ∧
    ∀ arbRpc baseRpc arbContract baseContract : String,
      startup true true arbRpc baseRpc [] [] arbContract baseContract =
        Except.ok (verify_contract_code [] arbContract "Arbitrum Sepolia",
                   verify_contract_code [] baseContract "Base Sepolia") :=
  ⟨rfl, fun _ _ _ _ => rfl⟩

end T3rnBot
